import Mathlib

/-!
Shallow embedding of the wlfins/api event indexer.

The repository contains several evolutionary copies of one indexing pipeline:
a legacy file-store live-only indexer, a Mongo-backed daemon
(historical backfill plus live listeners), and a Mongo-backed serverless
trigger endpoint.  This file models the storage-key normalization applied at
each ingestion boundary, the field whitelist for metadata updates, the
upsert-merge record store, the per-window backfill loop of the trigger
endpoint, and the live Transfer handler of the daemon, and proves or refutes
the specified properties against those definitions.
-/

namespace WlfiIndexer

/-- One lowercase hexadecimal digit character, as a JS hex string renders it. -/
def hexDigitChar (d : Nat) : Char :=
  Char.ofNat (if d < 10 then 48 + d else 87 + d)

/-- Numeric value of a lowercase hexadecimal digit character, as JS BigInt
parsing reads it. -/
def hexCharVal (c : Char) : Nat :=
  if 97 ≤ c.toNat then c.toNat - 87 else c.toNat - 48

/-- Big-endian base-16 digits of a number, zero-padded to width k. -/
def hexDigitsBE : Nat → Nat → List Nat
  | 0, _ => []
  | k + 1, h => (h / 16 ^ k % 16) :: hexDigitsBE k h

/-- The 0x-marked, 64-digit lowercase hex rendering of a 256-bit word: the
form in which ethers delivers a bytes32 value and in which ethers.namehash
returns a name hash. -/
def bytes32Hex (h : Nat) : String :=
  "0x" ++ String.mk ((hexDigitsBE 64 h).map hexDigitChar)

/-- JS BigInt applied to a 0x-marked hex string: parse the digits after the
two marker characters. -/
def bigIntOfHex (s : String) : Nat :=
  (s.toList.drop 2).foldl (fun a c => a * 16 + hexCharVal c) 0

/-- tokenId.toString() on the BigInt carried by a Transfer event: the
storage key used by the transfer ingestion boundaries of the Mongo
pipelines. -/
def transferKey (tokenId : Nat) : String := Nat.repr tokenId

/-- BigInt(ethers.namehash(name)).toString(): the storage key the Mongo
pipelines derive from a registration or renewal event.  The external hash
function nh stands for ethers.namehash. -/
def nameKey (nh : String → String) (nm : String) : String :=
  Nat.repr (bigIntOfHex (nh nm))

/-- BigInt(node).toString(): the storage key the Mongo pipelines derive from
the node of a TextChanged event. -/
def nodeKey (node : String) : String := Nat.repr (bigIntOfHex node)

/-- The legacy file-store variant uses the raw ethers.namehash hex string as
the storage key of a registration or renewal event. -/
def legacyNameKey (nh : String → String) (nm : String) : String := nh nm

/-- The legacy file-store variant uses the raw node hex string as the
storage key of a TextChanged event. -/
def legacyNodeKey (node : String) : String := node

theorem hexCharVal_hexDigitChar {d : Nat} (hd : d < 16) :
    hexCharVal (hexDigitChar d) = d := by
  interval_cases d <;> decide

theorem foldl_hexDigits (k : Nat) : ∀ (a h : Nat),
    ((hexDigitsBE k h).map hexDigitChar).foldl (fun acc c => acc * 16 + hexCharVal c) a
      = a * 16 ^ k + h % 16 ^ k := by
  induction k with
  | zero => intro a h; simp [hexDigitsBE, Nat.mod_one]
  | succ k ih =>
    intro a h
    have hd : h / 16 ^ k % 16 < 16 := Nat.mod_lt _ (by norm_num)
    simp only [hexDigitsBE, List.map_cons, List.foldl_cons, hexCharVal_hexDigitChar hd]
    rw [ih]
    have hm : h % 16 ^ (k + 1) = h % 16 ^ k + 16 ^ k * (h / 16 ^ k % 16) := by
      rw [pow_succ]
      exact Nat.mod_mul
    rw [hm]; ring

theorem toList_bytes32Hex (h : Nat) :
    (bytes32Hex h).toList = '0' :: 'x' :: (hexDigitsBE 64 h).map hexDigitChar := rfl

/-- Round trip: parsing the 64-digit hex rendering of a 256-bit value with
BigInt recovers the value. -/
theorem bigIntOfHex_bytes32Hex {h : Nat} (hh : h < 2 ^ 256) :
    bigIntOfHex (bytes32Hex h) = h := by
  have e : (16 : Nat) ^ 64 = 2 ^ 256 := by norm_num
  have h16 : h < 16 ^ 64 := by rw [e]; exact hh
  unfold bigIntOfHex
  rw [toList_bytes32Hex]
  simp only [List.drop_succ_cons, List.drop_zero]
  rw [foldl_hexDigits, Nat.zero_mul, Nat.zero_add]
  exact Nat.mod_eq_of_lt h16

set_option maxRecDepth 8000 in
/-- Claim C1 counterexample: the legacy live-only pipeline keys the record of
a registered name by the raw hex hash string, while the Mongo pipelines key
the same entity by the decimal string, so the encodings do not normalize to
one identical decimal storage key in every pipeline variant.  Shown concrete
at hash value 10. -/
theorem c1_hex_vs_decimal_key_counterexample :
    legacyNameKey (fun _ => bytes32Hex 10) "alice" ≠
      nameKey (fun _ => bytes32Hex 10) "alice" := by
  decide

/-- Claim C1 (amended): within the Mongo pipelines (daemon and trigger
endpoint), the three ingestion encodings of one entity — the name hash of
registration and renewal events, the bytes32 node of TextChanged events, and
the integer tokenId of Transfer events — all normalize to the identical
decimal string; the legacy file-store variant instead keys both of its
boundaries by the raw hex string, which is internally consistent but not the
decimal form. -/
theorem c1_canonical_key_amended (nh : String → String) (nm node : String)
    (tokenId h : Nat) (hh : h < 2 ^ 256) (hnm : nh nm = bytes32Hex h)
    (hnode : node = bytes32Hex h) (htid : tokenId = h) :
    nameKey nh nm = Nat.repr h ∧ nodeKey node = Nat.repr h ∧
      transferKey tokenId = Nat.repr h ∧ legacyNameKey nh nm = legacyNodeKey node := by
  subst htid hnode
  refine ⟨?_, ?_, rfl, hnm⟩
  · unfold nameKey; rw [hnm, bigIntOfHex_bytes32Hex hh]
  · unfold nodeKey; rw [bigIntOfHex_bytes32Hex hh]

/-- Witness for the amended claim C1 at the concrete hash value 10. -/
theorem c1_canonical_key_amended_witness :
    nameKey (fun _ => bytes32Hex 10) "alice" = Nat.repr 10 ∧
      nodeKey (bytes32Hex 10) = Nat.repr 10 ∧
      transferKey 10 = Nat.repr 10 ∧
      legacyNameKey (fun _ => bytes32Hex 10) "alice" = legacyNodeKey (bytes32Hex 10) :=
  c1_canonical_key_amended (fun _ => bytes32Hex 10) "alice" (bytes32Hex 10) 10 10
    (by norm_num) rfl rfl rfl

/-- The record fields of a domain document in the domains collection. -/
inductive DomainField
  | name
  | owner
  | expiry
  | description
  | avatar
  | website
  | xUsername
  | github
  | telegram
  | discord
deriving DecidableEq

/-- A (partial) domain document: each field either present with a string
value or absent. -/
def Doc := DomainField → Option String

/-- The empty document. -/
def emptyDoc : Doc := fun _ => none

/-- Pick the first value when present, otherwise the second: the effect of a
single field under a Mongo dollar-set update. -/
def overlay (a b : Option String) : Option String :=
  match a with
  | some v => some v
  | none => b

/-- Mongo dollar-set semantics: every field present in newData overwrites,
every other field of the old document is kept. -/
def mergeDoc (old newData : Doc) : Doc := fun f => overlay (newData f) (old f)

/-- A document carrying exactly one field, like the JS object literals
for owner or for one metadata field. -/
def singletonDoc (f : DomainField) (v : String) : Doc :=
  fun g => if g = f then some v else none

/-- The document literal of a DomainRegistered write: name, owner, expiry. -/
def regDoc (nm ow ex : String) : Doc := fun f =>
  match f with
  | .name => some nm
  | .owner => some ow
  | .expiry => some ex
  | _ => none

/-- The document literal of a DomainRenewed write in the Mongo pipelines:
name and expiry. -/
def renewDoc (nm ex : String) : Doc := fun f =>
  match f with
  | .name => some nm
  | .expiry => some ex
  | _ => none

/-- The domains collection: a map from tokenId storage key to document. -/
def DB := String → Option Doc

/-- updateOne with a dollar-set update and upsert enabled: merge into the
document at the key, inserting an empty document first when absent. -/
def updateOneSet (db : DB) (tokenId : String) (newData : Doc) : DB :=
  fun k =>
    if k = tokenId then some (mergeDoc ((db tokenId).getD emptyDoc) newData)
    else db k

/-- Read one field of the record stored at a key, none when the record or
the field is absent. -/
def fieldOf (db : DB) (k : String) (f : DomainField) : Option String :=
  match db k with
  | none => none
  | some d => d f

/-- The metadata key whitelist of the Mongo pipelines: the keyMap object of
the TextChanged handlers. -/
def keyMap (key : String) : Option DomainField :=
  if key = "description" then some .description
  else if key = "avatar" then some .avatar
  else if key = "url" then some .website
  else if key = "x" then some .xUsername
  else if key = "com.github" then some .github
  else if key = "com.telegram" then some .telegram
  else if key = "com.discord" then some .discord
  else none

/-- Decoded arguments of a Transfer event. -/
structure TransferArgs where
  fromAddr : String
  toAddr : String
  tokenId : Nat

/-- Decoded arguments of a DomainRegistered or DomainRenewed event. -/
structure RegistrationArgs where
  name : String
  owner : String
  expires : Nat

/-- Decoded arguments of a TextChanged event; the node is the hex string
ethers delivers for a bytes32 value. -/
structure TextChangedArgs where
  node : String
  indexedKey : String
  key : String
  value : String

/-- A queried log entry: decoded args when present (the code skips entries
whose args are undefined), plus block number and log index. -/
structure Ev (α : Type) where
  args : Option α
  blockNumber : Nat
  logIndex : Nat

/-- One decoded, category-tagged event as it reaches the apply pipeline. -/
inductive DecodedEvent
  | transfer (a : TransferArgs)
  | registration (a : RegistrationArgs)
  | renewal (a : RegistrationArgs)
  | textChanged (a : TextChangedArgs)

/-- The normalize, map, upsert-merge pipeline of the Mongo trigger endpoint
applied to one decoded event. -/
def applyEvent (nh : String → String) (db : DB) : DecodedEvent → DB
  | .transfer a => updateOneSet db (transferKey a.tokenId) (singletonDoc .owner a.toAddr)
  | .registration a =>
      updateOneSet db (nameKey nh a.name) (regDoc a.name a.owner (Nat.repr a.expires))
  | .renewal a =>
      updateOneSet db (nameKey nh a.name) (renewDoc a.name (Nat.repr a.expires))
  | .textChanged a =>
      match keyMap a.key with
      | none => db
      | some f => updateOneSet db (nodeKey a.node) (singletonDoc f a.value)

theorem mergeDoc_mergeDoc (d p : Doc) : mergeDoc (mergeDoc d p) p = mergeDoc d p := by
  funext f
  unfold mergeDoc overlay
  cases p f <;> rfl

theorem updateOneSet_idem (db : DB) (id : String) (p : Doc) :
    updateOneSet (updateOneSet db id p) id p = updateOneSet db id p := by
  funext k
  unfold updateOneSet
  by_cases h : k = id <;> simp [h, mergeDoc_mergeDoc]

/-- Claim C6: applying one decoded event twice through the pipeline yields
the same final record state as applying it once. -/
theorem c6_apply_event_idempotent (nh : String → String) (db : DB) (e : DecodedEvent) :
    applyEvent nh (applyEvent nh db e) e = applyEvent nh db e := by
  cases e with
  | transfer a => exact updateOneSet_idem ..
  | registration a => exact updateOneSet_idem ..
  | renewal a => exact updateOneSet_idem ..
  | textChanged a =>
    cases h : keyMap a.key with
    | none => simp [applyEvent, h]
    | some f => simp [applyEvent, h, updateOneSet_idem]

theorem fieldOf_updateOneSet (db : DB) (id k : String) (p : Doc) (f : DomainField) :
    fieldOf (updateOneSet db id p) k f =
      if k = id then overlay (p f) (fieldOf db id f) else fieldOf db k f := by
  unfold fieldOf updateOneSet mergeDoc
  by_cases h : k = id
  · simp only [h, if_pos rfl]
    cases db id <;> rfl
  · simp [h]

/-- Claim C8: a transfer event writes the owner field of the record keyed by
the normalized tokenId and touches nothing else: every other field of that
record, and every field of every other record, is unchanged. -/
theorem c8_transfer_writes_owner_only (nh : String → String) (db : DB) (a : TransferArgs) :
    fieldOf (applyEvent nh db (.transfer a)) (transferKey a.tokenId) .owner = some a.toAddr ∧
    (∀ f, f ≠ DomainField.owner →
      ∀ k, fieldOf (applyEvent nh db (.transfer a)) k f = fieldOf db k f) ∧
    (∀ k, k ≠ transferKey a.tokenId →
      ∀ f, fieldOf (applyEvent nh db (.transfer a)) k f = fieldOf db k f) := by
  refine ⟨?_, ?_, ?_⟩
  · rw [show applyEvent nh db (.transfer a)
        = updateOneSet db (transferKey a.tokenId) (singletonDoc .owner a.toAddr) from rfl]
    rw [fieldOf_updateOneSet]
    simp [singletonDoc, overlay]
  · intro f hf k
    rw [show applyEvent nh db (.transfer a)
        = updateOneSet db (transferKey a.tokenId) (singletonDoc .owner a.toAddr) from rfl]
    rw [fieldOf_updateOneSet]
    by_cases hk : k = transferKey a.tokenId
    · simp [hk, singletonDoc, hf, overlay]
    · simp [hk]
  · intro k hk f
    rw [show applyEvent nh db (.transfer a)
        = updateOneSet db (transferKey a.tokenId) (singletonDoc .owner a.toAddr) from rfl]
    rw [fieldOf_updateOneSet]
    simp [hk]

/-- Witness for claim C8: a concrete transfer of token 7 to address 0xB over
a store holding a record for token 7. -/
theorem c8_transfer_writes_owner_only_witness :
    fieldOf (applyEvent (fun _ => "") (updateOneSet (fun _ => none) "7" (regDoc "alice" "0xA" "1700000000")) (.transfer ⟨"0xA", "0xB", 7⟩)) (transferKey 7) .owner = some "0xB" ∧
    fieldOf (applyEvent (fun _ => "") (updateOneSet (fun _ => none) "7" (regDoc "alice" "0xA" "1700000000")) (.transfer ⟨"0xA", "0xB", 7⟩)) "7" .name =
      fieldOf (updateOneSet (fun _ => none) "7" (regDoc "alice" "0xA" "1700000000")) "7" .name ∧
    fieldOf (applyEvent (fun _ => "") (updateOneSet (fun _ => none) "7" (regDoc "alice" "0xA" "1700000000")) (.transfer ⟨"0xA", "0xB", 7⟩)) "8" .owner =
      fieldOf (updateOneSet (fun _ => none) "7" (regDoc "alice" "0xA" "1700000000")) "8" .owner := by
  refine ⟨(c8_transfer_writes_owner_only (fun _ => "") _ ⟨"0xA", "0xB", 7⟩).1, ?_, ?_⟩
  · exact (c8_transfer_writes_owner_only (fun _ => "") _ ⟨"0xA", "0xB", 7⟩).2.1 .name (by decide) "7"
  · exact (c8_transfer_writes_owner_only (fun _ => "") _ ⟨"0xA", "0xB", 7⟩).2.2 "8" (by decide) .owner

/-- Observable state of one trigger-endpoint run: the domains collection,
the number of store write attempts so far (used to address which writes the
store fails), the number of event-source query calls, the four per-category
counters, and the sequence of cursor writes. -/
structure RunState where
  db : DB
  writeIdx : Nat
  queries : Nat
  transferCount : Nat
  registrationCount : Nat
  renewalCount : Nat
  textChangedCount : Nat
  cursorWrites : List Nat

/-- The state at the start of a run over an existing domains collection. -/
def initState (db : DB) : RunState :=
  { db := db, writeIdx := 0, queries := 0, transferCount := 0,
    registrationCount := 0, renewalCount := 0, textChangedCount := 0,
    cursorWrites := [] }

/-- The updateDatabase helper of the trigger endpoint: one updateOne call
with dollar-set and upsert; a persistence failure (failAt true for this
write) is caught and logged, leaving the collection unchanged, and control
returns normally either way. -/
def updateDatabase (failAt : Nat → Bool) (s : RunState) (tokenId : String)
    (newData : Doc) : RunState :=
  { s with
    db := if failAt s.writeIdx then s.db else updateOneSet s.db tokenId newData
    writeIdx := s.writeIdx + 1 }

/-- Processing of one queried Transfer log entry: skip when args are
undefined, otherwise write the owner field and count the event. -/
def procTransfer (failAt : Nat → Bool) (s : RunState) (e : Ev TransferArgs) : RunState :=
  match e.args with
  | none => s
  | some a =>
    let s1 := updateDatabase failAt s (transferKey a.tokenId) (singletonDoc .owner a.toAddr)
    { s1 with transferCount := s1.transferCount + 1 }

/-- Processing of one queried DomainRegistered log entry. -/
def procRegistration (nh : String → String) (failAt : Nat → Bool) (s : RunState)
    (e : Ev RegistrationArgs) : RunState :=
  match e.args with
  | none => s
  | some a =>
    let s1 := updateDatabase failAt s (nameKey nh a.name)
      (regDoc a.name a.owner (Nat.repr a.expires))
    { s1 with registrationCount := s1.registrationCount + 1 }

/-- Processing of one queried DomainRenewed log entry. -/
def procRenewal (nh : String → String) (failAt : Nat → Bool) (s : RunState)
    (e : Ev RegistrationArgs) : RunState :=
  match e.args with
  | none => s
  | some a =>
    let s1 := updateDatabase failAt s (nameKey nh a.name)
      (renewDoc a.name (Nat.repr a.expires))
    { s1 with renewalCount := s1.renewalCount + 1 }

/-- Processing of one queried TextChanged log entry: a key outside the
whitelist produces no write, no count and no diagnostic. -/
def procTextChanged (failAt : Nat → Bool) (s : RunState) (e : Ev TextChangedArgs) : RunState :=
  match e.args with
  | none => s
  | some a =>
    match keyMap a.key with
    | none => s
    | some f =>
      let s1 := updateDatabase failAt s (nodeKey a.node) (singletonDoc f a.value)
      { s1 with textChangedCount := s1.textChangedCount + 1 }

/-- The four query results of one block window. -/
structure Window where
  transfers : List (Ev TransferArgs)
  registrations : List (Ev RegistrationArgs)
  renewals : List (Ev RegistrationArgs)
  textChanges : List (Ev TextChangedArgs)

/-- Record one event-source query call. -/
def bumpQuery (s : RunState) : RunState := { s with queries := s.queries + 1 }

/-- One iteration of the trigger endpoint's window loop: query and apply
the four categories in the fixed source order — transfers, registrations,
renewals, metadata changes. -/
def processWindow (nh : String → String) (failAt : Nat → Bool) (s : RunState)
    (w : Window) : RunState :=
  let s1 := w.transfers.foldl (procTransfer failAt) (bumpQuery s)
  let s2 := w.registrations.foldl (procRegistration nh failAt) (bumpQuery s1)
  let s3 := w.renewals.foldl (procRenewal nh failAt) (bumpQuery s2)
  w.textChanges.foldl (procTextChanged failAt) (bumpQuery s3)

/-- The starting blocks visited by the loop for i from a start while
i ≤ toBlock stepping by the 1000-block chunk size; the fuel argument bounds
the iteration count and is instantiated large enough to never run out. -/
def windowStarts : Nat → Nat → Nat → List Nat
  | 0, _, _ => []
  | fuel + 1, i, toBlock =>
    if i ≤ toBlock then i :: windowStarts fuel (i + 1000) toBlock else []

/-- The HTTP outcome of one trigger-endpoint invocation. -/
structure TriggerOutcome where
  status : Nat
  body : String
  state : RunState
  cursor : Option Nat

/-- The plain-text summary the endpoint sends on a completed run. -/
def summaryText (t r n x : Nat) : String :=
  "Indexing complete. Processed " ++ Nat.repr t ++ " transfers, " ++ Nat.repr r ++
    " registrations, " ++ Nat.repr n ++ " renewals, and " ++ Nat.repr x ++
    " metadata changes."

/-- The serverless trigger endpoint: check the bearer header first; read the
cursor, falling back to the deployment block when the singleton state
document is absent; stop with no writes when there is nothing new; otherwise
walk the windows, applying each category, and persist the cursor once, after
the loop, set to the head block captured at start.  getEvents stands for the
event source's query results per block range, failAt for which store writes
the record store fails. -/
def handleTrigger (cronSecret : String) (deploymentBlock : Nat) (nh : String → String)
    (authorization : Option String) (cursorState : Option Nat) (currentBlock : Nat)
    (getEvents : Nat → Nat → Window) (db0 : DB) (failAt : Nat → Bool) : TriggerOutcome :=
  if authorization = some ("Bearer " ++ cronSecret) then
    let lastProcessedBlock := cursorState.getD deploymentBlock
    if currentBlock ≤ lastProcessedBlock then
      { status := 200, body := "No new blocks to process.",
        state := initState db0, cursor := cursorState }
    else
      let starts := windowStarts (currentBlock + 1) (lastProcessedBlock + 1) currentBlock
      let s := starts.foldl
        (fun s i => processWindow nh failAt s (getEvents i (min (i + 999) currentBlock)))
        (initState db0)
      let s := { s with cursorWrites := s.cursorWrites ++ [currentBlock] }
      { status := 200,
        body := summaryText s.transferCount s.registrationCount s.renewalCount
          s.textChangedCount,
        state := s, cursor := some currentBlock }
  else
    { status := 401, body := "Unauthorized", state := initState db0,
      cursor := cursorState }

/-- Claim C4: a trigger request whose bearer header is missing or wrong gets
a 401 response, zero event-source queries, zero store write attempts, an
unchanged domains collection and an unchanged cursor. -/
theorem c4_unauthorized_no_side_effects (cronSecret : String) (deploymentBlock : Nat)
    (nh : String → String) (authorization : Option String) (cursorState : Option Nat)
    (currentBlock : Nat) (getEvents : Nat → Nat → Window) (db0 : DB) (failAt : Nat → Bool)
    (hauth : authorization ≠ some ("Bearer " ++ cronSecret)) :
    (handleTrigger cronSecret deploymentBlock nh authorization cursorState currentBlock
        getEvents db0 failAt).status = 401 ∧
    (handleTrigger cronSecret deploymentBlock nh authorization cursorState currentBlock
        getEvents db0 failAt).body = "Unauthorized" ∧
    (handleTrigger cronSecret deploymentBlock nh authorization cursorState currentBlock
        getEvents db0 failAt).state.db = db0 ∧
    (handleTrigger cronSecret deploymentBlock nh authorization cursorState currentBlock
        getEvents db0 failAt).state.queries = 0 ∧
    (handleTrigger cronSecret deploymentBlock nh authorization cursorState currentBlock
        getEvents db0 failAt).state.writeIdx = 0 ∧
    (handleTrigger cronSecret deploymentBlock nh authorization cursorState currentBlock
        getEvents db0 failAt).state.cursorWrites = [] ∧
    (handleTrigger cronSecret deploymentBlock nh authorization cursorState currentBlock
        getEvents db0 failAt).cursor = cursorState := by
  simp [handleTrigger, hauth, initState]

/-- Witness for claim C4: a concrete request with a wrong bearer token. -/
theorem c4_unauthorized_no_side_effects_witness :
    (handleTrigger "secret" 0 (fun _ => "") (some "Bearer wrong") (some 5) 100
        (fun _ _ => ⟨[], [], [], []⟩) (fun _ => none) (fun _ => false)).status = 401 ∧
    (handleTrigger "secret" 0 (fun _ => "") (some "Bearer wrong") (some 5) 100
        (fun _ _ => ⟨[], [], [], []⟩) (fun _ => none) (fun _ => false)).body = "Unauthorized" ∧
    (handleTrigger "secret" 0 (fun _ => "") (some "Bearer wrong") (some 5) 100
        (fun _ _ => ⟨[], [], [], []⟩) (fun _ => none) (fun _ => false)).state.db = (fun _ => none) ∧
    (handleTrigger "secret" 0 (fun _ => "") (some "Bearer wrong") (some 5) 100
        (fun _ _ => ⟨[], [], [], []⟩) (fun _ => none) (fun _ => false)).state.queries = 0 ∧
    (handleTrigger "secret" 0 (fun _ => "") (some "Bearer wrong") (some 5) 100
        (fun _ _ => ⟨[], [], [], []⟩) (fun _ => none) (fun _ => false)).state.writeIdx = 0 ∧
    (handleTrigger "secret" 0 (fun _ => "") (some "Bearer wrong") (some 5) 100
        (fun _ _ => ⟨[], [], [], []⟩) (fun _ => none) (fun _ => false)).state.cursorWrites = [] ∧
    (handleTrigger "secret" 0 (fun _ => "") (some "Bearer wrong") (some 5) 100
        (fun _ _ => ⟨[], [], [], []⟩) (fun _ => none) (fun _ => false)).cursor = some 5 :=
  c4_unauthorized_no_side_effects "secret" 0 (fun _ => "") (some "Bearer wrong") (some 5)
    100 (fun _ _ => ⟨[], [], [], []⟩) (fun _ => none) (fun _ => false) (by decide)

/-- JS truthiness of a possibly-undefined string argument: undefined and
the empty string are falsy. -/
def jsTruthyStr (a : Option String) : Bool :=
  match a with
  | none => false
  | some v => v != ""

/-- JS truthiness of a possibly-undefined BigInt argument: undefined and
zero are falsy. -/
def jsTruthyBig (a : Option Nat) : Bool :=
  match a with
  | none => false
  | some v => v != 0

/-- The live Transfer handler of the Mongo daemon: any falsy decoded
argument — an undefined argument, an empty address string, or the BigInt
zero tokenId — makes the handler return before the store write; otherwise it
writes the owner field at the decimal tokenId key. -/
def liveTransferHandler (db : DB) (fromArg toArg : Option String)
    (tokenIdArg : Option Nat) : DB :=
  if jsTruthyStr fromArg && jsTruthyStr toArg && jsTruthyBig tokenIdArg then
    match toArg, tokenIdArg with
    | some t, some tid => updateOneSet db (transferKey tid) (singletonDoc .owner t)
    | _, _ => db
  else db

/-- Claim C10: the daemon's live Transfer handler discards any delivery with
a falsy decoded argument before any store write; in particular a well-formed
transfer whose tokenId is zero is dropped, because BigInt zero is falsy. -/
theorem c10_live_transfer_falsy_dropped (db : DB) (fromArg toArg : Option String)
    (tokenIdArg : Option Nat)
    (hfalsy : fromArg = none ∨ fromArg = some "" ∨ toArg = none ∨ toArg = some "" ∨
      tokenIdArg = none ∨ tokenIdArg = some 0) :
    liveTransferHandler db fromArg toArg tokenIdArg = db := by
  rcases hfalsy with h | h | h | h | h | h <;> subst h <;>
    simp [liveTransferHandler, jsTruthyStr, jsTruthyBig]

/-- Witness for claim C10: a well-formed live transfer of tokenId zero from
0xA to 0xB leaves the collection untouched. -/
theorem c10_live_transfer_falsy_dropped_witness :
    liveTransferHandler (fun _ => none) (some "0xA") (some "0xB") (some 0) =
      (fun _ => none) :=
  c10_live_transfer_falsy_dropped (fun _ => none) (some "0xA") (some "0xB") (some 0)
    (Or.inr (Or.inr (Or.inr (Or.inr (Or.inr rfl)))))

theorem cursorWrites_procTransfer (fa : Nat → Bool) (s : RunState) (e : Ev TransferArgs) :
    (procTransfer fa s e).cursorWrites = s.cursorWrites := by
  cases h : e.args <;> simp [procTransfer, h, updateDatabase]

theorem cursorWrites_procRegistration (nh : String → String) (fa : Nat → Bool)
    (s : RunState) (e : Ev RegistrationArgs) :
    (procRegistration nh fa s e).cursorWrites = s.cursorWrites := by
  cases h : e.args <;> simp [procRegistration, h, updateDatabase]

theorem cursorWrites_procRenewal (nh : String → String) (fa : Nat → Bool)
    (s : RunState) (e : Ev RegistrationArgs) :
    (procRenewal nh fa s e).cursorWrites = s.cursorWrites := by
  cases h : e.args <;> simp [procRenewal, h, updateDatabase]

theorem cursorWrites_procTextChanged (fa : Nat → Bool) (s : RunState)
    (e : Ev TextChangedArgs) :
    (procTextChanged fa s e).cursorWrites = s.cursorWrites := by
  cases h : e.args with
  | none => simp [procTextChanged, h]
  | some a => cases hk : keyMap a.key <;> simp [procTextChanged, h, hk, updateDatabase]

theorem cursorWrites_foldl_procTransfer (fa : Nat → Bool) :
    ∀ (l : List (Ev TransferArgs)) (s : RunState),
      (l.foldl (procTransfer fa) s).cursorWrites = s.cursorWrites := by
  intro l
  induction l with
  | nil => intro s; rfl
  | cons e l ih => intro s; rw [List.foldl_cons, ih, cursorWrites_procTransfer]

theorem cursorWrites_foldl_procRegistration (nh : String → String) (fa : Nat → Bool) :
    ∀ (l : List (Ev RegistrationArgs)) (s : RunState),
      (l.foldl (procRegistration nh fa) s).cursorWrites = s.cursorWrites := by
  intro l
  induction l with
  | nil => intro s; rfl
  | cons e l ih => intro s; rw [List.foldl_cons, ih, cursorWrites_procRegistration]

theorem cursorWrites_foldl_procRenewal (nh : String → String) (fa : Nat → Bool) :
    ∀ (l : List (Ev RegistrationArgs)) (s : RunState),
      (l.foldl (procRenewal nh fa) s).cursorWrites = s.cursorWrites := by
  intro l
  induction l with
  | nil => intro s; rfl
  | cons e l ih => intro s; rw [List.foldl_cons, ih, cursorWrites_procRenewal]

theorem cursorWrites_foldl_procTextChanged (fa : Nat → Bool) :
    ∀ (l : List (Ev TextChangedArgs)) (s : RunState),
      (l.foldl (procTextChanged fa) s).cursorWrites = s.cursorWrites := by
  intro l
  induction l with
  | nil => intro s; rfl
  | cons e l ih => intro s; rw [List.foldl_cons, ih, cursorWrites_procTextChanged]

theorem cursorWrites_processWindow (nh : String → String) (fa : Nat → Bool)
    (s : RunState) (w : Window) :
    (processWindow nh fa s w).cursorWrites = s.cursorWrites := by
  simp [processWindow, cursorWrites_foldl_procTextChanged, cursorWrites_foldl_procRenewal,
    cursorWrites_foldl_procRegistration, cursorWrites_foldl_procTransfer, bumpQuery]

theorem cursorWrites_foldl_windows (nh : String → String) (fa : Nat → Bool)
    (f : Nat → Window) :
    ∀ (starts : List Nat) (s : RunState),
      (starts.foldl (fun s i => processWindow nh fa s (f i)) s).cursorWrites
        = s.cursorWrites := by
  intro starts
  induction starts with
  | nil => intro s; rfl
  | cons i starts ih => intro s; rw [List.foldl_cons, ih, cursorWrites_processWindow]

/-- Claim C3 counterexample: an authorized run over cursor 0 and head 2000
walks two windows (starting at blocks 1 and 1001), yet the trace of cursor
writes of the whole run is the single final write of the head block — there
is no per-window checkpoint of windowEnd 1000 before the second window. -/
theorem c3_per_window_checkpoint_counterexample :
    (handleTrigger "s" 0 (fun _ => "") (some "Bearer s") (some 0) 2000
        (fun _ _ => ⟨[], [], [], []⟩) (fun _ => none) (fun _ => false)).state.cursorWrites
        = [2000] ∧
    windowStarts 2001 1 2000 = [1, 1001] ∧
    ([2000] : List Nat) ≠ [1000, 2000] := by
  refine ⟨?_, by decide, by decide⟩
  decide

/-- Claim C3 (amended): the trigger endpoint persists the cursor exactly
once per run, after all windows are applied, setting it to the head block
captured at invocation start; there is no per-window checkpoint, so an
interrupted run restarts from the old cursor and re-applies the entire
span. -/
theorem c3_single_final_cursor_write (cronSecret : String) (deploymentBlock : Nat)
    (nh : String → String) (authorization : Option String) (cursorState : Option Nat)
    (currentBlock : Nat) (getEvents : Nat → Nat → Window) (db0 : DB) (failAt : Nat → Bool)
    (hauth : authorization = some ("Bearer " ++ cronSecret))
    (hnew : cursorState.getD deploymentBlock < currentBlock) :
    (handleTrigger cronSecret deploymentBlock nh authorization cursorState currentBlock
        getEvents db0 failAt).state.cursorWrites = [currentBlock] := by
  have hnle : ¬ currentBlock ≤ cursorState.getD deploymentBlock := not_le.mpr hnew
  simp [handleTrigger, hauth, hnle, cursorWrites_foldl_windows, initState]

/-- Witness for the amended claim C3 at cursor 0 and head 2000. -/
theorem c3_single_final_cursor_write_witness :
    (handleTrigger "s" 7 (fun _ => "") (some "Bearer s") (some 0) 2000
        (fun _ _ => ⟨[], [], [], []⟩) (fun _ => none) (fun _ => false)).state.cursorWrites
      = [2000] :=
  c3_single_final_cursor_write "s" 7 (fun _ => "") (some "Bearer s") (some 0) 2000
    (fun _ _ => ⟨[], [], [], []⟩) (fun _ => none) (fun _ => false) rfl (by decide)

/-- Claim C5: the persisted cursor never decreases: a run that finds no new
blocks (or is unauthorized) leaves it untouched and performs no cursor
write, the cursor read falls back to the deployment-block floor when the
state document is absent, and whenever the run finishes with a stored
cursor value it is at least the value read at start. -/
theorem c5_cursor_monotonic (cronSecret : String) (deploymentBlock : Nat)
    (nh : String → String) (authorization : Option String) (cursorState : Option Nat)
    (currentBlock : Nat) (getEvents : Nat → Nat → Window) (db0 : DB) (failAt : Nat → Bool) :
    (currentBlock ≤ cursorState.getD deploymentBlock →
      (handleTrigger cronSecret deploymentBlock nh authorization cursorState currentBlock
          getEvents db0 failAt).cursor = cursorState ∧
      (handleTrigger cronSecret deploymentBlock nh authorization cursorState currentBlock
          getEvents db0 failAt).state.cursorWrites = []) ∧
    (∀ v, (handleTrigger cronSecret deploymentBlock nh authorization cursorState currentBlock
          getEvents db0 failAt).cursor = some v →
        cursorState.getD deploymentBlock ≤ v) ∧
    (∀ v0 v1, cursorState = some v0 →
      (handleTrigger cronSecret deploymentBlock nh authorization cursorState currentBlock
          getEvents db0 failAt).cursor = some v1 → v0 ≤ v1) := by
  by_cases hauth : authorization = some ("Bearer " ++ cronSecret)
  · by_cases hle : currentBlock ≤ cursorState.getD deploymentBlock
    · have hcur : (handleTrigger cronSecret deploymentBlock nh authorization cursorState
          currentBlock getEvents db0 failAt).cursor = cursorState := by
        simp [handleTrigger, hauth, hle]
      have hcw : (handleTrigger cronSecret deploymentBlock nh authorization cursorState
          currentBlock getEvents db0 failAt).state.cursorWrites = [] := by
        simp [handleTrigger, hauth, hle, initState]
      refine ⟨fun _ => ⟨hcur, hcw⟩, ?_, ?_⟩
      · intro v hv
        rw [hcur] at hv
        cases cursorState with
        | none => simp at hv
        | some v0 =>
          rw [hv]
          simp
      · intro v0 v1 h0 h1
        rw [hcur, h0] at h1
        simp at h1
        omega
    · have hcur : (handleTrigger cronSecret deploymentBlock nh authorization cursorState
          currentBlock getEvents db0 failAt).cursor = some currentBlock := by
        simp [handleTrigger, hauth, hle]
      have hlt := not_le.mp hle
      refine ⟨fun h => absurd h hle, ?_, ?_⟩
      · intro v hv
        rw [hcur] at hv
        simp at hv
        omega
      · intro v0 v1 h0 h1
        rw [hcur] at h1
        simp at h1
        rw [h0] at hlt
        simp at hlt
        omega
  · have hcur : (handleTrigger cronSecret deploymentBlock nh authorization cursorState
        currentBlock getEvents db0 failAt).cursor = cursorState := by
      simp [handleTrigger, hauth]
    have hcw : (handleTrigger cronSecret deploymentBlock nh authorization cursorState
        currentBlock getEvents db0 failAt).state.cursorWrites = [] := by
      simp [handleTrigger, hauth, initState]
    refine ⟨fun _ => ⟨hcur, hcw⟩, ?_, ?_⟩
    · intro v hv
      rw [hcur] at hv
      cases cursorState with
      | none => simp at hv
      | some v0 =>
        rw [hv]
        simp
    · intro v0 v1 h0 h1
      rw [hcur, h0] at h1
      simp at h1
      omega

/-- Witness for claim C5: a run whose cursor 5 already reaches head 3 keeps
the cursor at 5 and performs no cursor write. -/
theorem c5_cursor_monotonic_witness :
    (handleTrigger "s" 0 (fun _ => "") (some "Bearer s") (some 5) 3
        (fun _ _ => ⟨[], [], [], []⟩) (fun _ => none) (fun _ => false)).cursor = some 5 ∧
    (handleTrigger "s" 0 (fun _ => "") (some "Bearer s") (some 5) 3
        (fun _ _ => ⟨[], [], [], []⟩) (fun _ => none) (fun _ => false)).state.cursorWrites
      = [] ∧
    (5 : Nat) ≤ 5 := by
  have T := c5_cursor_monotonic "s" 0 (fun _ => "") (some "Bearer s") (some 5) 3
    (fun _ _ => ⟨[], [], [], []⟩) (fun _ => none) (fun _ => false)
  refine ⟨(T.1 (by decide)).1, (T.1 (by decide)).2, ?_⟩
  exact T.2.2 5 5 rfl (T.1 (by decide)).1

/-- Claim C7: a TextChanged event whose key is outside the whitelist leaves
the whole run state untouched — no store write attempt, no error, no change
to any counter or diagnostic; a whitelisted key writes exactly the mapped
internal field and bumps only the metadata counter. -/
theorem c7_keymap_whitelist (fa : Nat → Bool) (s : RunState) (e : Ev TextChangedArgs)
    (a : TextChangedArgs) (he : e.args = some a) :
    (keyMap a.key = none → procTextChanged fa s e = s) ∧
    (∀ f, keyMap a.key = some f →
      (procTextChanged (fun _ => false) s e).db
          = updateOneSet s.db (nodeKey a.node) (singletonDoc f a.value) ∧
      fieldOf (procTextChanged (fun _ => false) s e).db (nodeKey a.node) f = some a.value ∧
      (∀ g, g ≠ f → ∀ k,
        fieldOf (procTextChanged (fun _ => false) s e).db k g = fieldOf s.db k g) ∧
      (procTextChanged fa s e).textChangedCount = s.textChangedCount + 1) := by
  constructor
  · intro h
    simp [procTextChanged, he, h]
  · intro f hf
    have hdb : (procTextChanged (fun _ => false) s e).db
        = updateOneSet s.db (nodeKey a.node) (singletonDoc f a.value) := by
      simp [procTextChanged, he, hf, updateDatabase]
    refine ⟨hdb, ?_, ?_, ?_⟩
    · rw [hdb, fieldOf_updateOneSet]
      simp [singletonDoc, overlay]
    · intro g hg k
      rw [hdb, fieldOf_updateOneSet]
      by_cases hk : k = nodeKey a.node
      · simp [hk, singletonDoc, hg, overlay]
      · simp [hk]
    · simp [procTextChanged, he, hf, updateDatabase]

/-- Witness for claim C7: the unsupported key is a silent no-op on the whole
state, the whitelisted key x writes exactly xUsername and bumps the metadata
counter. -/
theorem c7_keymap_whitelist_witness :
    procTextChanged (fun _ => false) (initState (fun _ => none))
        ⟨some ⟨"0xa", "k", "unsupported_key", "x"⟩, 100, 0⟩ = initState (fun _ => none) ∧
    fieldOf (procTextChanged (fun _ => false) (initState (fun _ => none))
        ⟨some ⟨"0xa", "k", "x", "alice_handle"⟩, 105, 0⟩).db (nodeKey "0xa")
        DomainField.xUsername = some "alice_handle" ∧
    fieldOf (procTextChanged (fun _ => false) (initState (fun _ => none))
        ⟨some ⟨"0xa", "k", "x", "alice_handle"⟩, 105, 0⟩).db (nodeKey "0xa")
        DomainField.name = fieldOf (fun _ => none) (nodeKey "0xa") DomainField.name ∧
    (procTextChanged (fun _ => false) (initState (fun _ => none))
        ⟨some ⟨"0xa", "k", "x", "alice_handle"⟩, 105, 0⟩).textChangedCount = 0 + 1 := by
  refine ⟨?_, ?_, ?_, ?_⟩
  · exact (c7_keymap_whitelist (fun _ => false) (initState (fun _ => none))
      ⟨some ⟨"0xa", "k", "unsupported_key", "x"⟩, 100, 0⟩ _ rfl).1 (by decide)
  · exact ((c7_keymap_whitelist (fun _ => false) (initState (fun _ => none))
      ⟨some ⟨"0xa", "k", "x", "alice_handle"⟩, 105, 0⟩ _ rfl).2 .xUsername (by decide)).2.1
  · exact ((c7_keymap_whitelist (fun _ => false) (initState (fun _ => none))
      ⟨some ⟨"0xa", "k", "x", "alice_handle"⟩, 105, 0⟩ _ rfl).2 .xUsername
        (by decide)).2.2.1 .name (by decide) (nodeKey "0xa")
  · exact ((c7_keymap_whitelist (fun _ => false) (initState (fun _ => none))
      ⟨some ⟨"0xa", "k", "x", "alice_handle"⟩, 105, 0⟩ _ rfl).2 .xUsername (by decide)).2.2.2

/-- Apply a list of keyed dollar-set updates to the collection in order. -/
def applyActions (db : DB) (l : List (String × Doc)) : DB :=
  l.foldl (fun db a => updateOneSet db a.1 a.2) db

/-- The value the last update in the list writes to one field of one key,
none when no update in the list sets that field at that key. -/
def lastWrite : List (String × Doc) → String → DomainField → Option String
  | [], _, _ => none
  | a :: rest, k, f => overlay (lastWrite rest k f) (if k = a.1 then a.2 f else none)

/-- The write of one queried Transfer log entry, none when args are
undefined. -/
def toTransferAction (e : Ev TransferArgs) : Option (String × Doc) :=
  e.args.map (fun a => (transferKey a.tokenId, singletonDoc .owner a.toAddr))

/-- The write of one queried DomainRegistered log entry. -/
def toRegistrationAction (nh : String → String) (e : Ev RegistrationArgs) :
    Option (String × Doc) :=
  e.args.map (fun a => (nameKey nh a.name, regDoc a.name a.owner (Nat.repr a.expires)))

/-- The write of one queried DomainRenewed log entry. -/
def toRenewalAction (nh : String → String) (e : Ev RegistrationArgs) :
    Option (String × Doc) :=
  e.args.map (fun a => (nameKey nh a.name, renewDoc a.name (Nat.repr a.expires)))

/-- The write of one queried TextChanged log entry, none when args are
undefined or the key is outside the whitelist. -/
def toTextAction (e : Ev TextChangedArgs) : Option (String × Doc) :=
  e.args.bind (fun a =>
    (keyMap a.key).map (fun f => (nodeKey a.node, singletonDoc f a.value)))

/-- All writes of one window, in the order the trigger endpoint issues them:
transfers first, then registrations, renewals, metadata changes. -/
def windowActions (nh : String → String) (w : Window) : List (String × Doc) :=
  w.transfers.filterMap toTransferAction ++
    (w.registrations.filterMap (toRegistrationAction nh) ++
      (w.renewals.filterMap (toRenewalAction nh) ++
        w.textChanges.filterMap toTextAction))

theorem overlay_assoc (a b c : Option String) :
    overlay (overlay a b) c = overlay a (overlay b c) := by
  cases a <;> rfl

theorem applyActions_append (db : DB) (l1 l2 : List (String × Doc)) :
    applyActions db (l1 ++ l2) = applyActions (applyActions db l1) l2 := by
  simp [applyActions, List.foldl_append]

theorem fieldOf_applyActions (k : String) (f : DomainField) :
    ∀ (l : List (String × Doc)) (db : DB),
      fieldOf (applyActions db l) k f = overlay (lastWrite l k f) (fieldOf db k f) := by
  intro l
  induction l with
  | nil => intro db; rfl
  | cons a rest ih =>
    intro db
    rw [show applyActions db (a :: rest) = applyActions (updateOneSet db a.1 a.2) rest
      from rfl]
    rw [ih]
    rw [show lastWrite (a :: rest) k f
      = overlay (lastWrite rest k f) (if k = a.1 then a.2 f else none) from rfl]
    rw [overlay_assoc]
    congr 1
    rw [fieldOf_updateOneSet]
    by_cases h : k = a.1
    · subst h
      simp
    · simp [h, overlay]

theorem db_foldl_procTransfer :
    ∀ (l : List (Ev TransferArgs)) (s : RunState),
      (l.foldl (procTransfer (fun _ => false)) s).db
        = applyActions s.db (l.filterMap toTransferAction) := by
  intro l
  induction l with
  | nil => intro s; rfl
  | cons e rest ih =>
    intro s
    rw [List.foldl_cons]
    cases h : e.args with
    | none => simp [procTransfer, h, toTransferAction, List.filterMap_cons, ih]
    | some a =>
      rw [ih]
      simp [procTransfer, h, toTransferAction, List.filterMap_cons, updateDatabase,
        applyActions]

theorem db_foldl_procRegistration (nh : String → String) :
    ∀ (l : List (Ev RegistrationArgs)) (s : RunState),
      (l.foldl (procRegistration nh (fun _ => false)) s).db
        = applyActions s.db (l.filterMap (toRegistrationAction nh)) := by
  intro l
  induction l with
  | nil => intro s; rfl
  | cons e rest ih =>
    intro s
    rw [List.foldl_cons]
    cases h : e.args with
    | none => simp [procRegistration, h, toRegistrationAction, List.filterMap_cons, ih]
    | some a =>
      rw [ih]
      simp [procRegistration, h, toRegistrationAction, List.filterMap_cons, updateDatabase,
        applyActions]

theorem db_foldl_procRenewal (nh : String → String) :
    ∀ (l : List (Ev RegistrationArgs)) (s : RunState),
      (l.foldl (procRenewal nh (fun _ => false)) s).db
        = applyActions s.db (l.filterMap (toRenewalAction nh)) := by
  intro l
  induction l with
  | nil => intro s; rfl
  | cons e rest ih =>
    intro s
    rw [List.foldl_cons]
    cases h : e.args with
    | none => simp [procRenewal, h, toRenewalAction, List.filterMap_cons, ih]
    | some a =>
      rw [ih]
      simp [procRenewal, h, toRenewalAction, List.filterMap_cons, updateDatabase,
        applyActions]

theorem db_foldl_procTextChanged :
    ∀ (l : List (Ev TextChangedArgs)) (s : RunState),
      (l.foldl (procTextChanged (fun _ => false)) s).db
        = applyActions s.db (l.filterMap toTextAction) := by
  intro l
  induction l with
  | nil => intro s; rfl
  | cons e rest ih =>
    intro s
    rw [List.foldl_cons]
    cases h : e.args with
    | none => simp [procTextChanged, h, toTextAction, List.filterMap_cons, ih]
    | some a =>
      cases hk : keyMap a.key with
      | none => simp [procTextChanged, h, hk, toTextAction, List.filterMap_cons, ih]
      | some f =>
        rw [ih]
        simp [procTextChanged, h, hk, toTextAction, List.filterMap_cons, updateDatabase,
          applyActions]

theorem db_processWindow (nh : String → String) (s : RunState) (w : Window) :
    (processWindow nh (fun _ => false) s w).db = applyActions s.db (windowActions nh w) := by
  unfold processWindow windowActions
  rw [db_foldl_procTextChanged,
    show ∀ t : RunState, (bumpQuery t).db = t.db from fun _ => rfl,
    db_foldl_procRenewal,
    show ∀ t : RunState, (bumpQuery t).db = t.db from fun _ => rfl,
    db_foldl_procRegistration,
    show ∀ t : RunState, (bumpQuery t).db = t.db from fun _ => rfl,
    db_foldl_procTransfer,
    show ∀ t : RunState, (bumpQuery t).db = t.db from fun _ => rfl,
    applyActions_append, applyActions_append, applyActions_append]

set_option maxRecDepth 8000 in
/-- Claim C2 counterexample: within one window a Transfer at block 5 writing
owner 0xB is applied before a DomainRegistered at block 3 writing owner 0xA
on the same identifier, because categories are processed in fixed order; the
surviving owner is 0xA although the transfer has the larger
(block, logIndex) tuple. -/
theorem c2_tiebreak_counterexample :
    fieldOf (processWindow (fun _ => bytes32Hex 5) (fun _ => false)
        (initState (fun _ => none))
        ⟨[⟨some ⟨"0xC", "0xB", 5⟩, 5, 0⟩],
          [⟨some ⟨"alice", "0xA", 1700000000⟩, 3, 0⟩], [], []⟩).db
      "5" DomainField.owner = some "0xA" ∧ ("0xA" : String) ≠ "0xB" := by
  constructor
  · decide
  · decide

/-- Claim C2 (amended): for any window, starting store state, identifier and
field, the field value that survives is the one written by the last event in
the fixed category-processing order (transfers, then registrations, then
renewals, then metadata changes, each in query order); the (block, logIndex)
tuple is never consulted across categories. -/
theorem c2_last_processing_order_wins (nh : String → String) (s : RunState) (w : Window)
    (k : String) (f : DomainField) :
    fieldOf (processWindow nh (fun _ => false) s w).db k f
      = overlay (lastWrite (windowActions nh w) k f) (fieldOf s.db k f) := by
  rw [db_processWindow, fieldOf_applyActions]

/-- Number of queried log entries whose args decoded. -/
def countSome {α : Type} (l : List (Ev α)) : Nat :=
  l.countP (fun e => e.args.isSome)

/-- Number of queried TextChanged entries whose args decoded and whose key
is on the whitelist. -/
def countMapped (l : List (Ev TextChangedArgs)) : Nat :=
  l.countP (fun e =>
    match e.args with
    | none => false
    | some a => (keyMap a.key).isSome)

theorem foldl_count_general {α : Type} (step : RunState → α → RunState)
    (proj : RunState → Nat) (p : α → Bool)
    (hstep : ∀ s e, proj (step s e) = proj s + (if p e then 1 else 0)) :
    ∀ (l : List α) (s : RunState), proj (l.foldl step s) = proj s + l.countP p := by
  intro l
  induction l with
  | nil => intro s; simp
  | cons e rest ih =>
    intro s
    rw [List.foldl_cons, ih, hstep, List.countP_cons]
    omega

theorem foldl_preserve_general {α : Type} (step : RunState → α → RunState)
    (proj : RunState → Nat) (hstep : ∀ s e, proj (step s e) = proj s) :
    ∀ (l : List α) (s : RunState), proj (l.foldl step s) = proj s := by
  intro l
  induction l with
  | nil => intro s; rfl
  | cons e rest ih => intro s; rw [List.foldl_cons, ih, hstep]

theorem counts_processWindow (nh : String → String) (fa : Nat → Bool) (s : RunState)
    (w : Window) :
    (processWindow nh fa s w).transferCount = s.transferCount + countSome w.transfers ∧
    (processWindow nh fa s w).registrationCount
      = s.registrationCount + countSome w.registrations ∧
    (processWindow nh fa s w).renewalCount = s.renewalCount + countSome w.renewals ∧
    (processWindow nh fa s w).textChangedCount
      = s.textChangedCount + countMapped w.textChanges := by
  have hT := foldl_count_general (procTransfer fa) (fun t => t.transferCount)
    (fun e => e.args.isSome)
    (by intro t e; cases h : e.args <;> simp [procTransfer, h, updateDatabase])
  have hR := foldl_count_general (procRegistration nh fa) (fun t => t.registrationCount)
    (fun e => e.args.isSome)
    (by intro t e; cases h : e.args <;> simp [procRegistration, h, updateDatabase])
  have hN := foldl_count_general (procRenewal nh fa) (fun t => t.renewalCount)
    (fun e => e.args.isSome)
    (by intro t e; cases h : e.args <;> simp [procRenewal, h, updateDatabase])
  have hX := foldl_count_general (procTextChanged fa) (fun t => t.textChangedCount)
    (fun e => match e.args with | none => false | some a => (keyMap a.key).isSome)
    (by
      intro t e
      cases h : e.args with
      | none => simp [procTextChanged, h]
      | some a =>
        cases hk : keyMap a.key <;> simp [procTextChanged, h, hk, updateDatabase])
  have pTR := foldl_preserve_general (procTransfer fa) (fun t => t.registrationCount)
    (by intro t e; cases h : e.args <;> simp [procTransfer, h, updateDatabase])
  have pTN := foldl_preserve_general (procTransfer fa) (fun t => t.renewalCount)
    (by intro t e; cases h : e.args <;> simp [procTransfer, h, updateDatabase])
  have pTX := foldl_preserve_general (procTransfer fa) (fun t => t.textChangedCount)
    (by intro t e; cases h : e.args <;> simp [procTransfer, h, updateDatabase])
  have pRT := foldl_preserve_general (procRegistration nh fa) (fun t => t.transferCount)
    (by intro t e; cases h : e.args <;> simp [procRegistration, h, updateDatabase])
  have pRN := foldl_preserve_general (procRegistration nh fa) (fun t => t.renewalCount)
    (by intro t e; cases h : e.args <;> simp [procRegistration, h, updateDatabase])
  have pRX := foldl_preserve_general (procRegistration nh fa) (fun t => t.textChangedCount)
    (by intro t e; cases h : e.args <;> simp [procRegistration, h, updateDatabase])
  have pNT := foldl_preserve_general (procRenewal nh fa) (fun t => t.transferCount)
    (by intro t e; cases h : e.args <;> simp [procRenewal, h, updateDatabase])
  have pNR := foldl_preserve_general (procRenewal nh fa) (fun t => t.registrationCount)
    (by intro t e; cases h : e.args <;> simp [procRenewal, h, updateDatabase])
  have pNX := foldl_preserve_general (procRenewal nh fa) (fun t => t.textChangedCount)
    (by intro t e; cases h : e.args <;> simp [procRenewal, h, updateDatabase])
  have pXT := foldl_preserve_general (procTextChanged fa) (fun t => t.transferCount)
    (by
      intro t e
      cases h : e.args with
      | none => simp [procTextChanged, h]
      | some a =>
        cases hk : keyMap a.key <;> simp [procTextChanged, h, hk, updateDatabase])
  have pXR := foldl_preserve_general (procTextChanged fa) (fun t => t.registrationCount)
    (by
      intro t e
      cases h : e.args with
      | none => simp [procTextChanged, h]
      | some a =>
        cases hk : keyMap a.key <;> simp [procTextChanged, h, hk, updateDatabase])
  have pXN := foldl_preserve_general (procTextChanged fa) (fun t => t.renewalCount)
    (by
      intro t e
      cases h : e.args with
      | none => simp [procTextChanged, h]
      | some a =>
        cases hk : keyMap a.key <;> simp [procTextChanged, h, hk, updateDatabase])
  refine ⟨?_, ?_, ?_, ?_⟩
  · simp [processWindow, bumpQuery, pXT, pNT, pRT, hT, countSome]
  · simp [processWindow, bumpQuery, pXR, pNR, hR, pTR, countSome]
  · simp [processWindow, bumpQuery, pXN, hN, pRN, pTN, countSome]
  · simp [processWindow, bumpQuery, hX, pNX, pRX, pTX, countMapped]

theorem counts_foldl_windows (nh : String → String) (fa : Nat → Bool)
    (f : Nat → Window) :
    ∀ (starts : List Nat) (s : RunState),
      ((starts.foldl (fun s i => processWindow nh fa s (f i)) s).transferCount
        = s.transferCount + (starts.map (fun i => countSome (f i).transfers)).sum) ∧
      ((starts.foldl (fun s i => processWindow nh fa s (f i)) s).registrationCount
        = s.registrationCount + (starts.map (fun i => countSome (f i).registrations)).sum) ∧
      ((starts.foldl (fun s i => processWindow nh fa s (f i)) s).renewalCount
        = s.renewalCount + (starts.map (fun i => countSome (f i).renewals)).sum) ∧
      ((starts.foldl (fun s i => processWindow nh fa s (f i)) s).textChangedCount
        = s.textChangedCount + (starts.map (fun i => countMapped (f i).textChanges)).sum) := by
  intro starts
  induction starts with
  | nil => intro s; exact ⟨by simp, by simp, by simp, by simp⟩
  | cons i rest ih =>
    intro s
    obtain ⟨i1, i2, i3, i4⟩ := ih (processWindow nh fa s (f i))
    obtain ⟨w1, w2, w3, w4⟩ := counts_processWindow nh fa s (f i)
    refine ⟨?_, ?_, ?_, ?_⟩ <;>
      simp only [List.foldl_cons, List.map_cons, List.sum_cons, i1, i2, i3, i4,
        w1, w2, w3, w4] <;> omega

/-- Claim C9: the per-category counts of the trigger endpoint's 200 summary
count every decoded (and, for metadata, whitelist-mapped) event in the
queried windows, with no dependence on the failAt pattern of store write
failures — updateDatabase swallows persistence errors and each counter is
bumped unconditionally after the write call, so the summary can overstate
the records actually persisted. -/
theorem c9_counts_ignore_write_failures (cronSecret : String) (deploymentBlock : Nat)
    (nh : String → String) (authorization : Option String) (cursorState : Option Nat)
    (currentBlock : Nat) (getEvents : Nat → Nat → Window) (db0 : DB) (failAt : Nat → Bool)
    (hauth : authorization = some ("Bearer " ++ cronSecret))
    (hnew : cursorState.getD deploymentBlock < currentBlock) (starts : List Nat)
    (hstarts : starts
      = windowStarts (currentBlock + 1) (cursorState.getD deploymentBlock + 1) currentBlock) :
    (handleTrigger cronSecret deploymentBlock nh authorization cursorState currentBlock
        getEvents db0 failAt).state.transferCount
      = (starts.map (fun i => countSome (getEvents i (min (i + 999) currentBlock)).transfers)).sum ∧
    (handleTrigger cronSecret deploymentBlock nh authorization cursorState currentBlock
        getEvents db0 failAt).state.registrationCount
      = (starts.map (fun i => countSome (getEvents i (min (i + 999) currentBlock)).registrations)).sum ∧
    (handleTrigger cronSecret deploymentBlock nh authorization cursorState currentBlock
        getEvents db0 failAt).state.renewalCount
      = (starts.map (fun i => countSome (getEvents i (min (i + 999) currentBlock)).renewals)).sum ∧
    (handleTrigger cronSecret deploymentBlock nh authorization cursorState currentBlock
        getEvents db0 failAt).state.textChangedCount
      = (starts.map (fun i => countMapped (getEvents i (min (i + 999) currentBlock)).textChanges)).sum ∧
    (handleTrigger cronSecret deploymentBlock nh authorization cursorState currentBlock
        getEvents db0 failAt).body
      = summaryText
          (starts.map (fun i => countSome (getEvents i (min (i + 999) currentBlock)).transfers)).sum
          (starts.map (fun i => countSome (getEvents i (min (i + 999) currentBlock)).registrations)).sum
          (starts.map (fun i => countSome (getEvents i (min (i + 999) currentBlock)).renewals)).sum
          (starts.map (fun i => countMapped (getEvents i (min (i + 999) currentBlock)).textChanges)).sum := by
  subst hstarts
  have hnle : ¬ currentBlock ≤ cursorState.getD deploymentBlock := not_le.mpr hnew
  obtain ⟨w1, w2, w3, w4⟩ := counts_foldl_windows nh failAt
    (fun i => getEvents i (min (i + 999) currentBlock))
    (windowStarts (currentBlock + 1) (cursorState.getD deploymentBlock + 1) currentBlock)
    (initState db0)
  simp only [initState] at w1 w2 w3 w4
  simp only [Nat.zero_add] at w1 w2 w3 w4
  refine ⟨?_, ?_, ?_, ?_, ?_⟩ <;>
    simp [handleTrigger, hauth, hnle, initState, summaryText, w1, w2, w3, w4]

/-- Witness for claim C9: a run in which every store write fails still
reports one processed transfer while the record store keeps no owner for the
token. -/
theorem c9_counts_ignore_write_failures_witness :
    (handleTrigger "s" 0 (fun _ => "") (some "Bearer s") (some 0) 1
        (fun _ _ => ⟨[⟨some ⟨"0xA", "0xB", 7⟩, 1, 0⟩], [], [], []⟩) (fun _ => none)
        (fun _ => true)).state.transferCount
      = ((windowStarts 2 1 1).map (fun i =>
          countSome ((fun _ _ => (⟨[⟨some ⟨"0xA", "0xB", 7⟩, 1, 0⟩], [], [], []⟩ : Window))
            i (min (i + 999) 1)).transfers)).sum ∧
    fieldOf (handleTrigger "s" 0 (fun _ => "") (some "Bearer s") (some 0) 1
        (fun _ _ => ⟨[⟨some ⟨"0xA", "0xB", 7⟩, 1, 0⟩], [], [], []⟩) (fun _ => none)
        (fun _ => true)).state.db "7" DomainField.owner = none ∧
    ((windowStarts 2 1 1).map (fun i =>
        countSome ((fun _ _ => (⟨[⟨some ⟨"0xA", "0xB", 7⟩, 1, 0⟩], [], [], []⟩ : Window))
          i (min (i + 999) 1)).transfers)).sum = 1 := by
  refine ⟨?_, by decide, by decide⟩
  exact (c9_counts_ignore_write_failures "s" 0 (fun _ => "") (some "Bearer s") (some 0) 1
    (fun _ _ => ⟨[⟨some ⟨"0xA", "0xB", 7⟩, 1, 0⟩], [], [], []⟩) (fun _ => none)
    (fun _ => true) rfl (by decide) (windowStarts 2 1 1) rfl).1

end WlfiIndexer
